import Mathlib

/-!
Verification of the authentication, RBAC-authorization and rate-limiting core
of the cs-eco-mvp backend.

The definitions below are shallow embeddings of the JavaScript source:
  - backend/config/roles.js      (role/permission registry)
  - backend/middleware/authorize.js (authorization gates)
  - backend/middleware/authenticate.js (authenticateToken / optionalAuth)
  - backend/routes/auth.js       (the POST /auth/refresh handler)
  - backend/middleware/rateLimiter.js (limiter configuration and 429 body)

JavaScript Sets become Finset String, objects used as lookup tables become
functions by string matching, thrown exceptions become explicit error values,
and the external jwt.verify / jwt.sign calls become function parameters.
-/

namespace CsEco

/-! ## Role / Permission registry (backend/config/roles.js) -/

/-- Object.values(ROLES): the closed role enumeration. -/
def ROLES : List String := ["admin", "user", "viewer"]

/-- Object.values(PERMISSIONS): every permission string defined in roles.js. -/
def PERMISSIONS : List String :=
  [ "users:create", "users:read", "users:update", "users:delete"
  , "contracts:create", "contracts:read", "contracts:update", "contracts:delete"
  , "oracles:create", "oracles:read", "oracles:update", "oracles:delete"
  , "tokens:create", "tokens:read", "tokens:update", "tokens:delete"
  , "risks:create", "risks:read", "risks:update", "risks:delete"
  , "alerts:create", "alerts:read", "alerts:update", "alerts:delete"
  , "treasury:create", "treasury:read", "treasury:update", "treasury:delete"
  , "ai-logs:create", "ai-logs:read", "ai-logs:update", "ai-logs:delete"
  , "audit-logs:read"
  , "settings:read", "settings:update" ]

/-- ROLE_PERMISSIONS[admin]: spread of Object.values(PERMISSIONS). -/
def adminPermissions : List String := PERMISSIONS

/-- ROLE_PERMISSIONS[user]. -/
def userPermissions : List String :=
  [ "contracts:create", "contracts:read", "contracts:update"
  , "oracles:read"
  , "tokens:read"
  , "risks:create", "risks:read", "risks:update"
  , "alerts:read", "alerts:update"
  , "treasury:read"
  , "ai-logs:create", "ai-logs:read"
  , "settings:read" ]

/-- ROLE_PERMISSIONS[viewer]. -/
def viewerPermissions : List String :=
  [ "contracts:read", "oracles:read", "tokens:read", "risks:read"
  , "alerts:read", "treasury:read", "ai-logs:read", "settings:read" ]

/-- The ROLE_PERMISSIONS object as a lookup: a key outside the three roles is
absent (undefined in JS). -/
def ROLE_PERMISSIONS (role : String) : Option (List String) :=
  if role = "admin" then some adminPermissions
  else if role = "user" then some userPermissions
  else if role = "viewer" then some viewerPermissions
  else none

/-- roles.js hasPermission: undefined role entry is falsy, so unknown roles
yield false; otherwise a Set membership test. -/
def hasPermission (role permission : String) : Bool :=
  match ROLE_PERMISSIONS role with
  | none => false
  | some rolePermissions => rolePermissions.contains permission

/-- The RESOURCE_PERMISSIONS object: per resource, the action entries.
An explicit JS null is `some none` at the action; a missing resource is `none`. -/
def RESOURCE_PERMISSIONS (resource : String) : Option (List (String × Option String)) :=
  if resource = "contract-metrics" then
    some [ ("create", some "contracts:create"), ("read", some "contracts:read")
         , ("update", some "contracts:update"), ("delete", some "contracts:delete") ]
  else if resource = "oracle-feeds" then
    some [ ("create", some "oracles:create"), ("read", some "oracles:read")
         , ("update", some "oracles:update"), ("delete", some "oracles:delete") ]
  else if resource = "token-analytics" then
    some [ ("create", some "tokens:create"), ("read", some "tokens:read")
         , ("update", some "tokens:update"), ("delete", some "tokens:delete") ]
  else if resource = "risk-assessments" then
    some [ ("create", some "risks:create"), ("read", some "risks:read")
         , ("update", some "risks:update"), ("delete", some "risks:delete") ]
  else if resource = "alerts" then
    some [ ("create", some "alerts:create"), ("read", some "alerts:read")
         , ("update", some "alerts:update"), ("delete", some "alerts:delete") ]
  else if resource = "treasury-operations" then
    some [ ("create", some "treasury:create"), ("read", some "treasury:read")
         , ("update", some "treasury:update"), ("delete", some "treasury:delete") ]
  else if resource = "ai-action-logs" then
    some [ ("create", some "ai-logs:create"), ("read", some "ai-logs:read")
         , ("update", some "ai-logs:update"), ("delete", some "ai-logs:delete") ]
  else if resource = "audit-logs" then
    some [ ("create", none), ("read", some "audit-logs:read")
         , ("update", none), ("delete", none) ]
  else none

/-- roles.js getResourcePermission: missing resource gives null; then
`resourcePerms[action] || null` maps both a missing action and an explicit
null to null. -/
def getResourcePermission (resource action : String) : Option String :=
  match RESOURCE_PERMISSIONS resource with
  | none => none
  | some resourcePerms =>
    match resourcePerms.lookup action with
    | some (some p) => some p
    | _ => none

/-- roles.js isValidRole: membership in Object.values(ROLES). -/
def isValidRole (role : String) : Bool :=
  ROLES.contains role

/-- roles.js getRoleLevel: `levels[role] || 0`. -/
def getRoleLevel (role : String) : Nat :=
  if role = "viewer" then 1
  else if role = "user" then 2
  else if role = "admin" then 3
  else 0

/-- roles.js hasRoleLevel: getRoleLevel(userRole) >= getRoleLevel(requiredRole). -/
def hasRoleLevel (userRole requiredRole : String) : Bool :=
  getRoleLevel requiredRole ≤ getRoleLevel userRole

/-! ## Request model shared by the middleware -/

/-- The decoded token payload set by the auth routes: { id, email, role }. -/
structure Claim where
  id : String
  email : String
  role : String
deriving DecidableEq, Repr

/-- The part of an Express request the gates read: the HTTP method and the
optional req.user attached by the authentication middleware. -/
structure Request where
  method : String
  user : Option Claim
deriving DecidableEq, Repr

/-- Outcome of one authorization gate: either call next(), or terminate with
res.status(status).json({error, message, required?}). -/
inductive MwResult where
  | next : MwResult
  | stop (status : Nat) (error : String) (message : String)
      (required : Option String) : MwResult
deriving DecidableEq, Repr

/-! ## Authorization gates (backend/middleware/authorize.js) -/

/-- The methodToAction object inside requireResourceAccess. -/
def methodToAction (method : String) : Option String :=
  if method = "GET" then some "read"
  else if method = "POST" then some "create"
  else if method = "PUT" then some "update"
  else if method = "PATCH" then some "update"
  else if method = "DELETE" then some "delete"
  else none

/-- authorize.js requireRoleLevel(minimumRole): identity check, role validity
check (`!role || !isValidRole(role)`), then hasRoleLevel. -/
def requireRoleLevel (minimumRole : String) (req : Request) : MwResult :=
  match req.user with
  | none => .stop 401 "Unauthorized" "Authentication required" none
  | some u =>
    if (u.role == "") || !(isValidRole u.role) then
      .stop 403 "Forbidden" "Invalid user role" none
    else if !(hasRoleLevel u.role minimumRole) then
      .stop 403 "Forbidden" "Insufficient role level" (some minimumRole)
    else .next

/-- authorize.js requireResourceAccess(resourceName): identity, role validity,
verb-to-action mapping (unknown verb gives 405), Resource-Action Map lookup
(no permission defined gives 403, fail secure), then hasPermission. -/
def requireResourceAccess (resourceName : String) (req : Request) : MwResult :=
  match req.user with
  | none => .stop 401 "Unauthorized" "Authentication required" none
  | some u =>
    if (u.role == "") || !(isValidRole u.role) then
      .stop 403 "Forbidden" "Invalid user role" none
    else
      match methodToAction req.method with
      | none =>
        .stop 405 "Method Not Allowed"
          ("HTTP method " ++ req.method ++ " is not supported") none
      | some action =>
        match getResourcePermission resourceName action with
        | none =>
          .stop 403 "Forbidden" "This action is not permitted on this resource" none
        | some requiredPermission =>
          if !(hasPermission u.role requiredPermission) then
            .stop 403 "Forbidden" "Insufficient permissions for this action"
              (some requiredPermission)
          else .next

/-- authorize.js requireOwnership(ownershipCheck): identity check, admin
bypass, then the awaited predicate; a thrown exception is the `.error` case
of Except and becomes a 500 response. -/
def requireOwnership (ownershipCheck : Request → Except String Bool)
    (req : Request) : MwResult :=
  match req.user with
  | none => .stop 401 "Unauthorized" "Authentication required" none
  | some u =>
    if u.role == "admin" then .next
    else
      match ownershipCheck req with
      | .error _ =>
        .stop 500 "Internal Server Error" "Failed to verify resource ownership" none
      | .ok isOwner =>
        if !isOwner then
          .stop 403 "Forbidden" "You can only access your own resources" none
        else .next

/-! ## Authentication middleware (backend/middleware/authenticate.js) -/

/-- The three ways jwt.verify can throw in authenticateToken:
TokenExpiredError, JsonWebTokenError, or anything else. -/
inductive VerifyError where
  | expired : VerifyError
  | malformed : VerifyError
  | other : VerifyError
deriving DecidableEq, Repr

/-- Outcome of the authentication middleware: either the chain continues
(carrying the optional req.user and whether console.warn ran), or the request
is terminated with res.status(status).json({error, message}). -/
inductive AuthnResult where
  | proceed (user : Option Claim) (warned : Bool) : AuthnResult
  | reject (status : Nat) (error : String) (message : String) : AuthnResult
deriving DecidableEq, Repr

/-- authenticate.js authenticateToken, with jwt.verify passed in as a
function from the token string to either the decoded claim or the error
class thrown. -/
def authenticateToken (cookieAccessToken : Option String)
    (verify : String → Except VerifyError Claim) : AuthnResult :=
  match cookieAccessToken with
  | none => .reject 401 "Unauthorized" "Access token required"
  | some accessToken =>
    match verify accessToken with
    | .ok decoded => .proceed (some decoded) false
    | .error .expired => .reject 401 "Unauthorized" "Access token expired"
    | .error .malformed => .reject 401 "Unauthorized" "Invalid access token"
    | .error .other => .reject 401 "Unauthorized" "Authentication failed"

/-- authenticate.js optionalAuth: no token or a failing verification still
calls next(); a failing verification logs a warning first. -/
def optionalAuth (cookieAccessToken : Option String)
    (verify : String → Except VerifyError Claim) : AuthnResult :=
  match cookieAccessToken with
  | none => .proceed none false
  | some accessToken =>
    match verify accessToken with
    | .ok decoded => .proceed (some decoded) false
    | .error _ => .proceed none true

/-! ## The refresh route (backend/routes/auth.js, POST /auth/refresh) -/

/-- One entry of the mock user list in routes/auth.js. -/
structure User where
  id : String
  email : String
  password : Option String
  full_name : String
  role : String
deriving DecidableEq, Repr

/-- The pair returned by generateTokens. -/
structure TokenPair where
  accessToken : String
  refreshToken : String
deriving DecidableEq, Repr

/-- Observable outcome of the /auth/refresh handler: HTTP status, the single
string carried in the JSON body, whether clearAuthCookies ran, the cookies
set by setAuthCookies, and the refreshTokens set after the request. -/
structure RefreshResult where
  status : Nat
  body : String
  cookiesCleared : Bool
  newCookies : Option TokenPair
  registry : Finset String
deriving DecidableEq

/-- routes/auth.js POST /auth/refresh. The refreshTokens Set is the
`registry` argument; jwt.verify on the refresh secret is `verifyRefresh`
(none models a thrown verification error caught by the catch block);
generateTokens is abstracted over the jwt.sign calls it performs. -/
def refreshRoute (cookieRefreshToken : Option String) (registry : Finset String)
    (verifyRefresh : String → Option Claim) (users : List User)
    (generateTokens : User → TokenPair) : RefreshResult :=
  match cookieRefreshToken with
  | none =>
    { status := 401, body := "Invalid refresh token", cookiesCleared := true
    , newCookies := none, registry := registry }
  | some refreshToken =>
    if refreshToken ∈ registry then
      match verifyRefresh refreshToken with
      | none =>
        { status := 401, body := "Invalid refresh token", cookiesCleared := true
        , newCookies := none, registry := registry }
      | some decoded =>
        match users.find? (fun u => u.id == decoded.id) with
        | none =>
          { status := 401, body := "User not found", cookiesCleared := true
          , newCookies := none, registry := registry }
        | some user =>
          let pair := generateTokens user
          { status := 200, body := "Token refreshed successfully"
          , cookiesCleared := false, newCookies := some pair
          , registry := insert pair.refreshToken (registry.erase refreshToken) }
    else
      { status := 401, body := "Invalid refresh token", cookiesCleared := true
      , newCookies := none, registry := registry }

/-! ## Rate limiter (backend/middleware/rateLimiter.js) -/

/-- The options given to express-rate-limit that matter for counting. -/
structure RateLimitConfig where
  windowMs : Nat
  max : Nat
  skipSuccessfulRequests : Bool
deriving DecidableEq, Repr

/-- rateLimiter.js loginRateLimiter: 15 minutes, 5 attempts, only failed
logins counted. -/
def loginRateLimiter : RateLimitConfig :=
  { windowMs := 15 * 60 * 1000, max := 5, skipSuccessfulRequests := true }

/-- The JSON body built by createRateLimitMessage in rateLimiter.js. -/
structure RateLimitBody where
  error : String
  message : String
  retryAfter : Nat
  limit : Nat
  remaining : Nat
  resetTime : String
deriving DecidableEq, Repr

/-- rateLimiter.js createRateLimitMessage. Times are ms since the epoch;
`toIso` stands for `new Date(ms).toISOString()`. Math.ceil((reset - now)/1000)
is `(reset - now + 999) / 1000` on Nat, which agrees with JS whenever the
reset time has not passed (always the case when a 429 is produced). -/
def createRateLimitMessage (toIso : Nat → String) (now resetT limit remaining : Nat) :
    RateLimitBody :=
  let retryAfter := (resetT - now + 999) / 1000
  { error := "Too many requests"
  , message := "You have exceeded the rate limit. Please try again in "
      ++ toString retryAfter ++ " seconds."
  , retryAfter := retryAfter
  , limit := limit
  , remaining := remaining
  , resetTime := toIso resetT }

/-- One per-key fixed-window counter of the limiter store. -/
structure Bucket where
  count : Nat
  resetTime : Nat
deriving DecidableEq, Repr

/-- The limiter store: client key (from keyGenerator) to bucket. -/
def RateLimitStore : Type := List (String × Bucket)

/-- Insert-or-replace the bucket stored for a key. -/
def storeUpdate (store : List (String × Bucket)) (key : String) (b : Bucket) :
    List (String × Bucket) :=
  match store with
  | [] => [(key, b)]
  | (k, b0) :: rest =>
    if k == key then (key, b) :: rest else (k, b0) :: storeUpdate rest key b

/-- The counter a request at time `now` sees for its key: the stored bucket
while its window is open, else a fresh bucket (created lazily / reset when
the window expired). -/
def liveBucket (cfg : RateLimitConfig) (now : Nat) (store : List (String × Bucket))
    (key : String) : Bucket :=
  match store.lookup key with
  | some b =>
    if now < b.resetTime then b else { count := 0, resetTime := now + cfg.windowMs }
  | none => { count := 0, resetTime := now + cfg.windowMs }

/-- Overall outcome of one request through a limiter: the response status
(429 from rateLimitHandler, else the status the guarded handler produced),
the 429 body when limited, and the store afterwards. -/
structure RateLimitStep where
  status : Nat
  body : Option RateLimitBody
  store : List (String × Bucket)

/-- Modelled from the spec: the fixed-window counting semantics of the
external express-rate-limit library, which is not part of this repository.
Per spec section 4.6 each request increments its key's bucket in the current
window; exceeding `max` yields a 429 through rateLimitHandler (embedded above
as createRateLimitMessage, which IS repository code); with
skipSuccessfulRequests a request whose response status is below 400 is
uncounted (its increment is undone when the response finishes). -/
def rateLimitStep (cfg : RateLimitConfig) (toIso : Nat → String) (now : Nat)
    (key : String) (handlerStatus : Nat) (store : List (String × Bucket)) :
    RateLimitStep :=
  let b := liveBucket cfg now store key
  let hits := b.count + 1
  if cfg.max < hits then
    { status := 429
    , body := some (createRateLimitMessage toIso now b.resetTime cfg.max (cfg.max - hits))
    , store := storeUpdate store key { b with count := hits } }
  else
    let final : Bucket :=
      if cfg.skipSuccessfulRequests ∧ handlerStatus < 400 then
        { b with count := hits - 1 }
      else { b with count := hits }
    { status := handlerStatus, body := none, store := storeUpdate store key final }

/-- n consecutive failed login attempts (handler status 401) for one key at
time t0, starting from an empty store. -/
def loginFailures (toIso : Nat → String) (t0 : Nat) (key : String) :
    Nat → List (String × Bucket)
  | 0 => []
  | n + 1 =>
    (rateLimitStep loginRateLimiter toIso t0 key 401 (loginFailures toIso t0 key n)).store

/-! ## Helper lemmas -/

lemma hasPermission_admin_iff (p : String) :
    hasPermission "admin" p = true ↔ p ∈ adminPermissions := by
  simp [hasPermission, ROLE_PERMISSIONS, List.elem_iff]

lemma hasPermission_user_iff (p : String) :
    hasPermission "user" p = true ↔ p ∈ userPermissions := by
  simp [hasPermission, ROLE_PERMISSIONS, List.elem_iff]

lemma hasPermission_viewer_iff (p : String) :
    hasPermission "viewer" p = true ↔ p ∈ viewerPermissions := by
  simp [hasPermission, ROLE_PERMISSIONS, List.elem_iff]

lemma hasPermission_unknown (role : String) (ha : ¬ role = "admin")
    (hu : ¬ role = "user") (hv : ¬ role = "viewer") (p : String) :
    hasPermission role p = false := by
  simp [hasPermission, ROLE_PERMISSIONS, ha, hu, hv]

lemma viewerPermissions_subset_userPermissions (p : String)
    (hp : p ∈ viewerPermissions) : p ∈ userPermissions := by
  fin_cases hp <;> decide

lemma userPermissions_subset_adminPermissions (p : String)
    (hp : p ∈ userPermissions) : p ∈ adminPermissions := by
  fin_cases hp <;> decide

lemma viewerPermissions_subset_adminPermissions (p : String)
    (hp : p ∈ viewerPermissions) : p ∈ adminPermissions := by
  fin_cases hp <;> decide

lemma getRoleLevel_eq_zero (role : String) (hv : ¬ role = "viewer")
    (hu : ¬ role = "user") (ha : ¬ role = "admin") : getRoleLevel role = 0 := by
  simp [getRoleLevel, hv, hu, ha]

/-! ## Claim theorems -/

/-- C3: hasPermission is a total function that returns false for every
permission string whenever the role is outside the closed enumeration
admin / user / viewer, and for an enumerated role returns true exactly when
the permission is in that role's granted permission list. -/
theorem hasPermission_spec :
    (∀ role : String, role ∉ ROLES → ∀ p : String, hasPermission role p = false) ∧
    (∀ p : String,
      (hasPermission "admin" p = true ↔ p ∈ adminPermissions) ∧
      (hasPermission "user" p = true ↔ p ∈ userPermissions) ∧
      (hasPermission "viewer" p = true ↔ p ∈ viewerPermissions)) := by
  constructor
  · intro role hrole p
    simp only [ROLES, List.mem_cons, List.not_mem_nil, or_false, not_or] at hrole
    exact hasPermission_unknown role hrole.1 hrole.2.1 hrole.2.2 p
  · intro p
    exact ⟨hasPermission_admin_iff p, hasPermission_user_iff p, hasPermission_viewer_iff p⟩

/-- Witness for C3 at the concrete role "hacker" and permission "users:read",
and at the enumerated role "viewer" with "contracts:read". -/
theorem hasPermission_spec_witness :
    hasPermission "hacker" "users:read" = false ∧
    (hasPermission "viewer" "contracts:read" = true ↔
      "contracts:read" ∈ viewerPermissions) :=
  ⟨hasPermission_spec.1 "hacker" (by decide) "users:read",
   (hasPermission_spec.2 "contracts:read").2.2⟩

/-- C9: permission monotonicity along the role hierarchy. Whenever two
enumerated roles satisfy getRoleLevel r2 ≤ getRoleLevel r1, every permission
held by r2 is held by r1; and admin holds every permission of the permission
enumeration. -/
theorem rolePermissions_monotone :
    (∀ r1, r1 ∈ ROLES → ∀ r2, r2 ∈ ROLES → getRoleLevel r2 ≤ getRoleLevel r1 →
      ∀ p : String, hasPermission r2 p = true → hasPermission r1 p = true) ∧
    (∀ p, p ∈ PERMISSIONS → hasPermission "admin" p = true) := by
  constructor
  · intro r1 hr1 r2 hr2 hle p hp
    fin_cases hr1 <;> fin_cases hr2
    · exact hp
    · exact (hasPermission_admin_iff p).mpr
        (userPermissions_subset_adminPermissions p ((hasPermission_user_iff p).mp hp))
    · exact (hasPermission_admin_iff p).mpr
        (viewerPermissions_subset_adminPermissions p ((hasPermission_viewer_iff p).mp hp))
    · exact absurd hle (by decide)
    · exact hp
    · exact (hasPermission_user_iff p).mpr
        (viewerPermissions_subset_userPermissions p ((hasPermission_viewer_iff p).mp hp))
    · exact absurd hle (by decide)
    · exact absurd hle (by decide)
    · exact hp
  · intro p hp
    exact (hasPermission_admin_iff p).mpr hp

/-- Witness for C9: admin absorbs a permission coming from viewer, and admin
holds the permission "users:delete" of the enumeration. -/
theorem rolePermissions_monotone_witness :
    hasPermission "admin" "contracts:read" = true ∧
    hasPermission "admin" "users:delete" = true :=
  ⟨rolePermissions_monotone.1 "admin" (by decide) "viewer" (by decide) (by decide)
      "contracts:read" (by decide),
   rolePermissions_monotone.2 "users:delete" (by decide)⟩

/-- C7 counterexample: the claim asserts that every authorization path
involving an unknown role denies, also when the unknown role is the
configured required minimum of requireRoleLevel; but with the unknown
minimum "superadmin" (level 0) a viewer identity passes the gate. -/
theorem requireRoleLevel_unknown_minimum_allows :
    requireRoleLevel "superadmin"
      { method := "POST"
      , user := some { id := "2", email := "user@lumanagi.com", role := "viewer" } } =
      MwResult.next := by decide

/-- C7 (amended): getRoleLevel yields 0 for every role outside the closed
enumeration and at least 1 inside it; requireRoleLevel rejects an
unauthenticated request with 401 and an identity whose own role is unknown
with 403; but when the unknown role is the configured required minimum, its
level 0 is satisfied by every enumerated identity role, so requireRoleLevel
passes instead of denying. -/
theorem getRoleLevel_fail_secure :
    (∀ role : String, role ∉ ROLES → getRoleLevel role = 0) ∧
    (∀ role, role ∈ ROLES → 1 ≤ getRoleLevel role) ∧
    (∀ minimumRole req, req.user = none →
      requireRoleLevel minimumRole req =
        .stop 401 "Unauthorized" "Authentication required" none) ∧
    (∀ minimumRole req u, req.user = some u → u.role ∉ ROLES →
      requireRoleLevel minimumRole req =
        .stop 403 "Forbidden" "Invalid user role" none) ∧
    (∀ minimumRole, minimumRole ∉ ROLES → ∀ req u, req.user = some u →
      u.role ∈ ROLES → requireRoleLevel minimumRole req = .next) := by
  refine ⟨?_, ?_, ?_, ?_, ?_⟩
  · intro role hrole
    simp only [ROLES, List.mem_cons, List.not_mem_nil, or_false, not_or] at hrole
    exact getRoleLevel_eq_zero role hrole.2.2 hrole.2.1 hrole.1
  · intro role hrole
    fin_cases hrole <;> decide
  · intro minimumRole req h
    simp [requireRoleLevel, h]
  · intro minimumRole req u h hrole
    simp only [ROLES, List.mem_cons, List.not_mem_nil, or_false, not_or] at hrole
    obtain ⟨ha, hu, hv⟩ := hrole
    simp [requireRoleLevel, h, isValidRole, ROLES, ha, hu, hv]
  · intro minimumRole hmin req u h hrole
    simp only [ROLES, List.mem_cons, List.not_mem_nil, or_false, not_or] at hmin
    simp only [ROLES, List.mem_cons, List.not_mem_nil, or_false] at hrole
    rcases hrole with hr | hr | hr <;>
      simp [requireRoleLevel, h, isValidRole, ROLES, hasRoleLevel, getRoleLevel, hr,
        hmin.1, hmin.2.1, hmin.2.2]

/-- Witness for C7 (amended) at concrete roles and requests. -/
theorem getRoleLevel_fail_secure_witness :
    getRoleLevel "superadmin" = 0 ∧
    1 ≤ getRoleLevel "viewer" ∧
    requireRoleLevel "user" { method := "GET", user := none } =
      .stop 401 "Unauthorized" "Authentication required" none ∧
    requireRoleLevel "user"
      { method := "GET"
      , user := some { id := "9", email := "h@example.com", role := "hacker" } } =
      .stop 403 "Forbidden" "Invalid user role" none ∧
    requireRoleLevel "superadmin"
      { method := "GET"
      , user := some { id := "1", email := "admin@lumanagi.com", role := "user" } } =
      .next :=
  ⟨getRoleLevel_fail_secure.1 "superadmin" (by decide),
   getRoleLevel_fail_secure.2.1 "viewer" (by decide),
   getRoleLevel_fail_secure.2.2.1 "user" _ rfl,
   getRoleLevel_fail_secure.2.2.2.1 "user" _ _ rfl (by decide),
   getRoleLevel_fail_secure.2.2.2.2 "superadmin" (by decide) _ _ rfl (by decide)⟩

lemma validRole_check_false (role : String) (h : role ∈ ROLES) :
    ((role == "") || !(isValidRole role)) = false := by
  simp only [ROLES, List.mem_cons, List.not_mem_nil, or_false] at h
  rcases h with hr | hr | hr <;> simp [isValidRole, ROLES, hr]

/-- C2: on an authenticated request with an enumerated role,
requireResourceAccess maps GET to read, POST to create, PUT and PATCH to
update, DELETE to delete, and answers 405 for any other verb; it answers 403
whenever the Resource-Action Map has no entry or a null entry for the
resource+action pair — for every enumerated role including admin, e.g. update
and delete on audit-logs — and 403 with the required permission echoed
whenever the role lacks the mapped permission. -/
theorem requireResourceAccess_spec :
    (methodToAction "GET" = some "read" ∧ methodToAction "POST" = some "create" ∧
     methodToAction "PUT" = some "update" ∧ methodToAction "PATCH" = some "update" ∧
     methodToAction "DELETE" = some "delete") ∧
    (∀ resourceName req u, req.user = some u → u.role ∈ ROLES →
      (methodToAction req.method = none →
        requireResourceAccess resourceName req =
          .stop 405 "Method Not Allowed"
            ("HTTP method " ++ req.method ++ " is not supported") none) ∧
      (∀ action, methodToAction req.method = some action →
        (getResourcePermission resourceName action = none →
          requireResourceAccess resourceName req =
            .stop 403 "Forbidden" "This action is not permitted on this resource" none) ∧
        (∀ perm, getResourcePermission resourceName action = some perm →
          hasPermission u.role perm = false →
          requireResourceAccess resourceName req =
            .stop 403 "Forbidden" "Insufficient permissions for this action"
              (some perm)))) ∧
    (∀ req u, req.user = some u → u.role ∈ ROLES →
      req.method = "PUT" ∨ req.method = "PATCH" ∨ req.method = "DELETE" →
      requireResourceAccess "audit-logs" req =
        .stop 403 "Forbidden" "This action is not permitted on this resource" none) := by
  refine ⟨by decide, ?_, ?_⟩
  · intro resourceName req u hu hrole
    have hv := validRole_check_false u.role hrole
    refine ⟨?_, ?_⟩
    · intro hm
      simp [requireResourceAccess, hu, hv, hm]
    · intro action hm
      refine ⟨?_, ?_⟩
      · intro hperm
        simp [requireResourceAccess, hu, hv, hm, hperm]
      · intro perm hperm hhas
        simp [requireResourceAccess, hu, hv, hm, hperm, hhas]
  · intro req u hu hrole hm
    have hv := validRole_check_false u.role hrole
    have h1 : getResourcePermission "audit-logs" "update" = none := by decide
    have h2 : getResourcePermission "audit-logs" "delete" = none := by decide
    rcases hm with hm | hm | hm <;>
      simp [requireResourceAccess, hu, hv, hm, methodToAction, h1, h2]

/-- Witness for C2: the spec scenario POST /contract-metrics as viewer is
denied with required contracts:create, and DELETE on audit-logs is denied
even for admin. -/
theorem requireResourceAccess_spec_witness :
    requireResourceAccess "contract-metrics"
      { method := "POST"
      , user := some { id := "3", email := "viewer@lumanagi.com", role := "viewer" } } =
      .stop 403 "Forbidden" "Insufficient permissions for this action"
        (some "contracts:create") ∧
    requireResourceAccess "audit-logs"
      { method := "DELETE"
      , user := some { id := "1", email := "admin@lumanagi.com", role := "admin" } } =
      .stop 403 "Forbidden" "This action is not permitted on this resource" none :=
  ⟨(((requireResourceAccess_spec.2.1 "contract-metrics" _ _ rfl (by decide)).2
      "create" (by decide)).2 "contracts:create" (by decide) (by decide)),
   requireResourceAccess_spec.2.2 _ _ rfl (by decide) (by right; right; rfl)⟩

/-- C4: strict-mode authentication. No access token cookie gives
401/"Access token required"; a token failing verification as expired gives
401/"Access token expired"; as malformed, 401/"Invalid access token"; any
other verification failure, 401/"Authentication failed"; and a verified token
attaches the decoded identity claim and continues. -/
theorem authenticateToken_spec :
    (∀ verify, authenticateToken none verify =
      .reject 401 "Unauthorized" "Access token required") ∧
    (∀ verify tok, verify tok = .error .expired →
      authenticateToken (some tok) verify =
        .reject 401 "Unauthorized" "Access token expired") ∧
    (∀ verify tok, verify tok = .error .malformed →
      authenticateToken (some tok) verify =
        .reject 401 "Unauthorized" "Invalid access token") ∧
    (∀ verify tok, verify tok = .error .other →
      authenticateToken (some tok) verify =
        .reject 401 "Unauthorized" "Authentication failed") ∧
    (∀ verify tok c, verify tok = .ok c →
      authenticateToken (some tok) verify = .proceed (some c) false) := by
  refine ⟨fun verify => rfl, ?_, ?_, ?_, ?_⟩
  · intro verify tok h; simp [authenticateToken, h]
  · intro verify tok h; simp [authenticateToken, h]
  · intro verify tok h; simp [authenticateToken, h]
  · intro verify tok c h; simp [authenticateToken, h]

/-- Witness for C4 with concrete verifiers for each outcome. -/
theorem authenticateToken_spec_witness :
    authenticateToken (some "t1") (fun _ => .error .expired) =
      .reject 401 "Unauthorized" "Access token expired" ∧
    authenticateToken (some "t2") (fun _ => .error .malformed) =
      .reject 401 "Unauthorized" "Invalid access token" ∧
    authenticateToken (some "t3") (fun _ => .error .other) =
      .reject 401 "Unauthorized" "Authentication failed" ∧
    authenticateToken (some "t4")
      (fun _ => .ok { id := "1", email := "admin@lumanagi.com", role := "admin" }) =
      .proceed (some { id := "1", email := "admin@lumanagi.com", role := "admin" }) false :=
  ⟨authenticateToken_spec.2.1 _ "t1" rfl,
   authenticateToken_spec.2.2.1 _ "t2" rfl,
   authenticateToken_spec.2.2.2.1 _ "t3" rfl,
   authenticateToken_spec.2.2.2.2 _ "t4" _ rfl⟩

/-- C5: optional-mode authentication never rejects. Without a token it
continues with no identity and no warning; with a token failing verification
it warns and continues with no identity; only a verified token attaches the
identity; and no input produces a reject response. -/
theorem optionalAuth_spec :
    (∀ verify, optionalAuth none verify = .proceed none false) ∧
    (∀ verify tok e, verify tok = .error e →
      optionalAuth (some tok) verify = .proceed none true) ∧
    (∀ verify tok c, verify tok = .ok c →
      optionalAuth (some tok) verify = .proceed (some c) false) ∧
    (∀ cookie verify status er msg,
      optionalAuth cookie verify ≠ .reject status er msg) := by
  refine ⟨fun verify => rfl, ?_, ?_, ?_⟩
  · intro verify tok e h; simp [optionalAuth, h]
  · intro verify tok c h; simp [optionalAuth, h]
  · intro cookie verify status er msg
    cases cookie with
    | none => simp [optionalAuth]
    | some tok =>
      cases h : verify tok <;> simp [optionalAuth, h]

/-- Witness for C5: an expired token on an optional endpoint proceeds with no
identity but with a warning recorded. -/
theorem optionalAuth_spec_witness :
    optionalAuth (some "expired-token") (fun _ => .error .expired) =
      .proceed none true ∧
    optionalAuth none (fun _ => .error .expired) = .proceed none false :=
  ⟨optionalAuth_spec.2.1 _ "expired-token" .expired rfl,
   optionalAuth_spec.1 _⟩

/-- C6: requireOwnership. An unauthenticated request gets 401 whatever the
predicate does; an admin identity passes whatever the predicate does; a
non-admin identity with a predicate resolving false gets 403; and a predicate
that throws gives 500, never a pass. -/
theorem requireOwnership_spec :
    (∀ check req, req.user = none →
      requireOwnership check req =
        .stop 401 "Unauthorized" "Authentication required" none) ∧
    (∀ check req u, req.user = some u → u.role = "admin" →
      requireOwnership check req = .next) ∧
    (∀ check req u, req.user = some u → ¬ u.role = "admin" → check req = .ok false →
      requireOwnership check req =
        .stop 403 "Forbidden" "You can only access your own resources" none) ∧
    (∀ check req u msg, req.user = some u → ¬ u.role = "admin" →
      check req = .error msg →
      requireOwnership check req =
        .stop 500 "Internal Server Error" "Failed to verify resource ownership" none) := by
  refine ⟨?_, ?_, ?_, ?_⟩
  · intro check req h; simp [requireOwnership, h]
  · intro check req u h hrole; simp [requireOwnership, h, hrole]
  · intro check req u h hrole hcheck; simp [requireOwnership, h, hrole, hcheck]
  · intro check req u msg h hrole hcheck; simp [requireOwnership, h, hrole, hcheck]

/-- Witness for C6: an admin passes a throwing predicate, a non-admin with a
false predicate gets 403, and a throwing predicate on a non-admin gives 500. -/
theorem requireOwnership_spec_witness :
    requireOwnership (fun _ => .error "db down")
      { method := "PUT"
      , user := some { id := "1", email := "admin@lumanagi.com", role := "admin" } } =
      .next ∧
    requireOwnership (fun _ => .ok false)
      { method := "PUT"
      , user := some { id := "2", email := "user@lumanagi.com", role := "user" } } =
      .stop 403 "Forbidden" "You can only access your own resources" none ∧
    requireOwnership (fun _ => .error "db down")
      { method := "PUT"
      , user := some { id := "2", email := "user@lumanagi.com", role := "user" } } =
      .stop 500 "Internal Server Error" "Failed to verify resource ownership" none :=
  ⟨requireOwnership_spec.2.1 _ _ _ rfl rfl,
   requireOwnership_spec.2.2.1 _ _ _ rfl (by decide) rfl,
   requireOwnership_spec.2.2.2 _ _ _ "db down" rfl (by decide) rfl⟩

lemma refreshRoute_not_mem (tok : String) (registry : Finset String)
    (verifyRefresh : String → Option Claim) (users : List User)
    (generateTokens : User → TokenPair) (h : tok ∉ registry) :
    (refreshRoute (some tok) registry verifyRefresh users generateTokens).status = 401 ∧
    (refreshRoute (some tok) registry verifyRefresh users generateTokens).registry =
      registry := by
  constructor <;> simp [refreshRoute, h]

/-- C1: refresh-token rotation. A refresh token that is not a member of the
registry is rejected with 401 whatever verification would say, and the
registry is untouched; rotating a registered token that verifies and matches
a user, with a newly issued refresh token distinct from the old one, removes
the old token, inserts the new one, and makes an immediately repeated
rotation attempt with the old token fail with 401. -/
theorem refresh_rotation_spec :
    (∀ tok (registry : Finset String) verifyRefresh users generateTokens,
      tok ∉ registry →
      (refreshRoute (some tok) registry verifyRefresh users generateTokens).status
        = 401 ∧
      (refreshRoute (some tok) registry verifyRefresh users generateTokens).registry
        = registry) ∧
    (∀ tok (registry : Finset String) verifyRefresh users generateTokens c user,
      tok ∈ registry → verifyRefresh tok = some c →
      users.find? (fun u => u.id == c.id) = some user →
      (generateTokens user).refreshToken ≠ tok →
      (refreshRoute (some tok) registry verifyRefresh users generateTokens).status
        = 200 ∧
      (refreshRoute (some tok) registry verifyRefresh users generateTokens).registry
        = insert (generateTokens user).refreshToken (registry.erase tok) ∧
      tok ∉ (refreshRoute (some tok) registry verifyRefresh users generateTokens).registry ∧
      (refreshRoute (some tok)
        (refreshRoute (some tok) registry verifyRefresh users generateTokens).registry
        verifyRefresh users generateTokens).status = 401) := by
  constructor
  · intro tok registry verifyRefresh users generateTokens h
    exact refreshRoute_not_mem tok registry verifyRefresh users generateTokens h
  · intro tok registry verifyRefresh users generateTokens c user hmem hv hfind hne
    have hreg :
        (refreshRoute (some tok) registry verifyRefresh users generateTokens).registry
          = insert (generateTokens user).refreshToken (registry.erase tok) := by
      simp [refreshRoute, hmem, hv, hfind]
    have hnot : tok ∉ insert (generateTokens user).refreshToken (registry.erase tok) := by
      rw [Finset.mem_insert]
      rintro (h | h)
      · exact hne h.symm
      · exact Finset.not_mem_erase tok registry h
    refine ⟨by simp [refreshRoute, hmem, hv, hfind], hreg, ?_, ?_⟩
    · rw [hreg]; exact hnot
    · rw [hreg]
      exact (refreshRoute_not_mem tok _ verifyRefresh users generateTokens hnot).1

/-- Witness for C1 at a concrete one-token registry and a rotation that
issues the distinct refresh token "new". -/
theorem refresh_rotation_spec_witness :
    ("ghost" ∉ ({"old"} : Finset String) ∧
      (refreshRoute (some "ghost") {"old"}
        (fun _ => some { id := "1", email := "admin@lumanagi.com", role := "admin" })
        [ { id := "1", email := "admin@lumanagi.com", password := some "hash"
          , full_name := "Admin User", role := "admin" } ]
        (fun _ => { accessToken := "acc2", refreshToken := "new" })).status = 401) ∧
    ((refreshRoute (some "old") {"old"}
        (fun _ => some { id := "1", email := "admin@lumanagi.com", role := "admin" })
        [ { id := "1", email := "admin@lumanagi.com", password := some "hash"
          , full_name := "Admin User", role := "admin" } ]
        (fun _ => { accessToken := "acc2", refreshToken := "new" })).status = 200 ∧
      "old" ∉ (refreshRoute (some "old") {"old"}
        (fun _ => some { id := "1", email := "admin@lumanagi.com", role := "admin" })
        [ { id := "1", email := "admin@lumanagi.com", password := some "hash"
          , full_name := "Admin User", role := "admin" } ]
        (fun _ => { accessToken := "acc2", refreshToken := "new" })).registry ∧
      (refreshRoute (some "old")
        (refreshRoute (some "old") {"old"}
          (fun _ => some { id := "1", email := "admin@lumanagi.com", role := "admin" })
          [ { id := "1", email := "admin@lumanagi.com", password := some "hash"
            , full_name := "Admin User", role := "admin" } ]
          (fun _ => { accessToken := "acc2", refreshToken := "new" })).registry
        (fun _ => some { id := "1", email := "admin@lumanagi.com", role := "admin" })
        [ { id := "1", email := "admin@lumanagi.com", password := some "hash"
          , full_name := "Admin User", role := "admin" } ]
        (fun _ => { accessToken := "acc2", refreshToken := "new" })).status = 401) :=
  ⟨⟨by decide,
    (refresh_rotation_spec.1 "ghost" {"old"} _ _ _ (by decide)).1⟩,
   (refresh_rotation_spec.2 "old" {"old"} _ _ _
      { id := "1", email := "admin@lumanagi.com", role := "admin" }
      { id := "1", email := "admin@lumanagi.com", password := some "hash"
      , full_name := "Admin User", role := "admin" }
      (by decide) rfl (by decide) (by decide)).1,
   (refresh_rotation_spec.2 "old" {"old"} _ _ _
      { id := "1", email := "admin@lumanagi.com", role := "admin" }
      { id := "1", email := "admin@lumanagi.com", password := some "hash"
      , full_name := "Admin User", role := "admin" }
      (by decide) rfl (by decide) (by decide)).2.2.1,
   (refresh_rotation_spec.2 "old" {"old"} _ _ _
      { id := "1", email := "admin@lumanagi.com", role := "admin" }
      { id := "1", email := "admin@lumanagi.com", password := some "hash"
      , full_name := "Admin User", role := "admin" }
      (by decide) rfl (by decide) (by decide)).2.2.2⟩

/-- C10: refresh failure atomicity. Whenever the refresh handler answers 401
(no cookie, token not registered, verification failure, or user not found),
the registry after the request equals the registry before it; in particular a
registered token whose verification fails (e.g. expired) is still registered
afterwards. -/
theorem refresh_failure_atomic :
    (∀ cookie (registry : Finset String) verifyRefresh users generateTokens,
      (refreshRoute cookie registry verifyRefresh users generateTokens).status = 401 →
      (refreshRoute cookie registry verifyRefresh users generateTokens).registry
        = registry) ∧
    (∀ tok (registry : Finset String) verifyRefresh users generateTokens,
      tok ∈ registry → verifyRefresh tok = none →
      tok ∈ (refreshRoute (some tok) registry verifyRefresh users generateTokens).registry) := by
  constructor
  · intro cookie registry verifyRefresh users generateTokens h
    cases cookie with
    | none => simp [refreshRoute]
    | some tok =>
      by_cases hmem : tok ∈ registry
      · cases hv : verifyRefresh tok with
        | none => simp [refreshRoute, hmem, hv]
        | some c =>
          cases hfind : users.find? (fun u => u.id == c.id) with
          | none => simp [refreshRoute, hmem, hv, hfind]
          | some user => simp [refreshRoute, hmem, hv, hfind] at h
      · simp [refreshRoute, hmem]
  · intro tok registry verifyRefresh users generateTokens hmem hv
    simp [refreshRoute, hmem, hv]

/-- Witness for C10: a registered but expired token fails with 401 and is
still registered afterwards. -/
theorem refresh_failure_atomic_witness :
    (refreshRoute (some "stale") {"stale"} (fun _ => none) []
      (fun _ => { accessToken := "a", refreshToken := "r" })).registry
      = {"stale"} ∧
    "stale" ∈ (refreshRoute (some "stale") {"stale"} (fun _ => none) []
      (fun _ => { accessToken := "a", refreshToken := "r" })).registry :=
  ⟨refresh_failure_atomic.1 (some "stale") {"stale"} _ _ _ (by decide),
   refresh_failure_atomic.2 "stale" {"stale"} _ _ _ (by decide) rfl⟩

lemma loginFailures_store (toIso : Nat → String) (t0 : Nat) (key : String) :
    ∀ n, n ≤ 4 →
      loginFailures toIso t0 key (n + 1) =
        [(key, { count := n + 1, resetTime := t0 + 900000 })] := by
  intro n hn
  induction n with
  | zero =>
    simp [loginFailures, rateLimitStep, liveBucket, storeUpdate, loginRateLimiter,
      createRateLimitMessage]
  | succ m ih =>
    have hm : m ≤ 4 := by omega
    have hlt : t0 < t0 + 900000 := by omega
    have hmax : ¬ (5 < m + 1 + 1) := by omega
    rw [loginFailures, ih hm]
    simp [rateLimitStep, liveBucket, storeUpdate, loginRateLimiter, List.lookup,
      hlt, hmax]

/-- C8: login rate limiting for one client key. The login limiter uses a
15-minute window with at most 5 counted attempts; an allowed request whose
response status is below 400 leaves the counter of its key unchanged while a
failed one (status at least 400) increments it; a key whose open window
already counts 5 is answered 429 whatever status its request would have
produced (so also with correct credentials); and after 5 failed attempts the
6th request gets a 429 body holding error, message, retryAfter in seconds
until the window resets, limit, remaining, and the ISO rendering of the reset
time. -/
theorem loginRateLimiter_spec :
    (loginRateLimiter.windowMs = 15 * 60 * 1000 ∧ loginRateLimiter.max = 5 ∧
     loginRateLimiter.skipSuccessfulRequests = true) ∧
    (∀ toIso now key handlerStatus store,
      (liveBucket loginRateLimiter now store key).count + 1 ≤ 5 →
      (rateLimitStep loginRateLimiter toIso now key handlerStatus store).status
        = handlerStatus ∧
      (handlerStatus < 400 →
        (rateLimitStep loginRateLimiter toIso now key handlerStatus store).store
          = storeUpdate store key (liveBucket loginRateLimiter now store key)) ∧
      (400 ≤ handlerStatus →
        (rateLimitStep loginRateLimiter toIso now key handlerStatus store).store
          = storeUpdate store key
              { liveBucket loginRateLimiter now store key with
                  count := (liveBucket loginRateLimiter now store key).count + 1 })) ∧
    (∀ toIso now key handlerStatus store b, store.lookup key = some b →
      now < b.resetTime → 5 ≤ b.count →
      (rateLimitStep loginRateLimiter toIso now key handlerStatus store).status = 429 ∧
      (rateLimitStep loginRateLimiter toIso now key handlerStatus store).body
        = some (createRateLimitMessage toIso now b.resetTime 5 0)) ∧
    (∀ toIso t0 key,
      (rateLimitStep loginRateLimiter toIso t0 key 200
        (loginFailures toIso t0 key 5)).status = 429 ∧
      (rateLimitStep loginRateLimiter toIso t0 key 200
        (loginFailures toIso t0 key 5)).body
        = some { error := "Too many requests"
               , message :=
                   "You have exceeded the rate limit. Please try again in 900 seconds."
               , retryAfter := 900, limit := 5, remaining := 0
               , resetTime := toIso (t0 + 900000) }) := by
  refine ⟨by decide, ?_, ?_, ?_⟩
  · intro toIso now key handlerStatus store hle
    have h5 : loginRateLimiter.max = 5 := rfl
    have hmax : ¬ (loginRateLimiter.max <
        (liveBucket loginRateLimiter now store key).count + 1) := by omega
    refine ⟨?_, ?_, ?_⟩
    · simp only [rateLimitStep]
      rw [if_neg hmax]
    · intro h4
      simp only [rateLimitStep]
      rw [if_neg hmax,
        if_pos (show (loginRateLimiter.skipSuccessfulRequests = true) ∧
          handlerStatus < 400 from ⟨rfl, h4⟩)]
      simp only [Nat.add_sub_cancel]
    · intro h4
      have h4n : ¬ ((loginRateLimiter.skipSuccessfulRequests = true) ∧
          handlerStatus < 400) := fun hc => by omega
      simp only [rateLimitStep]
      rw [if_neg hmax, if_neg h4n]
  · intro toIso now key handlerStatus store b hlook hnow hcnt
    have hb : liveBucket loginRateLimiter now store key = b := by
      simp [liveBucket, hlook, hnow]
    have h5 : loginRateLimiter.max = 5 := rfl
    have hmax : loginRateLimiter.max < b.count + 1 := by omega
    have hrem : loginRateLimiter.max - (b.count + 1) = 0 := by omega
    constructor
    · simp only [rateLimitStep, hb]
      rw [if_pos hmax]
    · simp only [rateLimitStep, hb]
      rw [if_pos hmax, hrem, h5]
  · intro toIso t0 key
    have h5 := loginFailures_store toIso t0 key 4 (by omega)
    rw [show (5 : Nat) = 4 + 1 from rfl, h5]
    have hlt : t0 < t0 + 900000 := by omega
    have h1 : t0 + 900000 - t0 + 999 = 900999 := by omega
    constructor <;>
      simp [rateLimitStep, liveBucket, List.lookup, hlt, loginRateLimiter,
        createRateLimitMessage, h1]
    rfl

/-- Witness for C8 at the concrete key "1.2.3.4", start time 0, and an ISO
renderer returning "iso": a successful attempt from an empty store leaves the
counter at 0, and the 6th request after 5 failures is answered 429 with the
full body, despite its own handler status 200. -/
theorem loginRateLimiter_spec_witness :
    (rateLimitStep loginRateLimiter (fun _ => "iso") 0 "1.2.3.4" 200 []).store
      = [("1.2.3.4", { count := 0, resetTime := 900000 })] ∧
    (rateLimitStep loginRateLimiter (fun _ => "iso") 0 "1.2.3.4" 200
      (loginFailures (fun _ => "iso") 0 "1.2.3.4" 5)).status = 429 ∧
    (rateLimitStep loginRateLimiter (fun _ => "iso") 0 "1.2.3.4" 200
      (loginFailures (fun _ => "iso") 0 "1.2.3.4" 5)).body
      = some { error := "Too many requests"
             , message :=
                 "You have exceeded the rate limit. Please try again in 900 seconds."
             , retryAfter := 900, limit := 5, remaining := 0
             , resetTime := "iso" } :=
  ⟨((loginRateLimiter_spec.2.1 (fun _ => "iso") 0 "1.2.3.4" 200 []
      (by decide)).2.1 (by decide)).trans (by decide),
   (loginRateLimiter_spec.2.2.2 (fun _ => "iso") 0 "1.2.3.4").1,
   (loginRateLimiter_spec.2.2.2 (fun _ => "iso") 0 "1.2.3.4").2⟩

end CsEco
